import Mathlib

/-!
Verification of the Bucharest shoe-supplier search tool (`script.py`).

The source program fetches OpenStreetMap elements, deduplicates them by a
string key built from the element type and id, classifies each element as a
relevant supplier or not, projects relevant elements into a flat supplier
record, and writes the records to a CSV file.  This file is a shallow
embedding of that pipeline: the data model and every pure computation of the
program are translated into executable Lean definitions, and the behavioural
properties of the specification are proved about them.
-/

/-- A character-level model of Python `str.lower` as the program uses it:
ASCII uppercase letters are shifted to lowercase, and the Romanian
uppercase diacritics that occur in the program's data domain are mapped to
their lowercase forms; every other character is unchanged. -/
def py_lower_char (c : Char) : Char :=
  if 65 ≤ c.toNat ∧ c.toNat ≤ 90 then Char.ofNat (c.toNat + 32)
  else if c = 'Ă' then 'ă'
  else if c = 'Â' then 'â'
  else if c = 'Î' then 'î'
  else if c = 'Ș' then 'ș'
  else if c = 'Ț' then 'ț'
  else if c = 'Ş' then 'ş'
  else if c = 'Ţ' then 'ţ'
  else c

/-- Model of Python `str.lower` (see `py_lower_char`). -/
def py_lower (s : String) : String :=
  ⟨s.data.map py_lower_char⟩

/-- `leadEq needle hay` is true when `needle` occurs at the very start of
`hay` (character-wise equality of an initial segment). -/
def leadEq : List Char → List Char → Bool
  | [], _ => true
  | _ :: _, [] => false
  | a :: as, b :: bs => a == b && leadEq as bs

/-- `hasSub needle hay` is true when `needle` occurs contiguously somewhere
inside `hay`; this models the Python expression `needle in hay` on strings. -/
def hasSub (needle : List Char) : List Char → Bool
  | [] => needle.isEmpty
  | c :: t => leadEq needle (c :: t) || hasSub needle t

/-- String-level substring test: models Python `needle in hay`. -/
def strContains (hay needle : String) : Bool :=
  hasSub needle.data hay.data

/-- Drop the leading whitespace characters of a character list. -/
def dropLeadingWs : List Char → List Char
  | [] => []
  | c :: t => if c.isWhitespace then dropLeadingWs t else c :: t

/-- Model of Python `str.strip` with no argument: remove whitespace from
both ends of the string. -/
def py_strip (s : String) : String :=
  ⟨dropLeadingWs ((dropLeadingWs s.data.reverse).reverse)⟩

/-- Lookup in a string-keyed mapping (Python `dict.__contains__` /
`dict.get` with no default): first matching key wins. -/
def dictGet : List (String × String) → String → Option String
  | [], _ => none
  | (k, v) :: rest, key => if k == key then some v else dictGet rest key

/-- Python `tags.get(key, dflt)`. -/
def dictGetD (tags : List (String × String)) (key dflt : String) : String :=
  (dictGet tags key).getD dflt

/-- The `center` sub-object of a way element: Python `element['center']`,
whose `lat` and `lon` entries are read with `.get` and may be absent. -/
structure Center where
  lat : Option ℚ
  lon : Option ℚ
deriving DecidableEq, Repr

/-- One element of the Overpass response (`osm_data['elements'][i]`).
`type` and `id` are accessed unconditionally in the source; `tags`,
`lat`, `lon` and `center` are accessed with presence checks or `.get`,
hence optional.  Coordinates are modelled as exact rationals. -/
structure OSMElement where
  type : String
  id : Int
  tags : Option (List (String × String))
  lat : Option ℚ
  lon : Option ℚ
  center : Option Center
deriving DecidableEq, Repr

/-- The parsed Overpass payload: a JSON object that may or may not carry a
top-level `elements` list. -/
structure OSMData where
  elements : Option (List OSMElement)
deriving DecidableEq, Repr

/-- The supplier dictionary built for each relevant element
(`script.py`, the `supplier = {...}` literal). -/
structure Supplier where
  id : Int
  type : String
  name : String
  address : String
  city : String
  postcode : String
  shop : String
  craft : String
  description : String
  phone : String
  website : String
  latitude : Option ℚ
  longitude : Option ℚ
deriving DecidableEq, Repr

/-- The fixed keyword list `shoe_material_keywords` of the source,
verbatim and in source order. -/
def shoe_material_keywords : List String :=
  ["cizmărie", "cizmar", "pantof", "shoe", "footwear",
   "piele", "leather", "material", "skin", "textil",
   "depozit", "warehouse", "wholesale", "en-gros", "angro",
   "nelucrată", "raw", "brut", "provizie", "supply"]

/-- The lowercased tag read `tags.get(key, '').lower()` performed on an
element (with `tags = element.get('tags', {})`). -/
def lower_tag (e : OSMElement) (key : String) : String :=
  py_lower (dictGetD (e.tags.getD []) key "")

/-- The relevance decision of `filter_and_process_data`, with the same
sequential structure as the source: start from `False`, set to `True` on
the shop whitelist or the shoemaker craft, then set to `True` on a keyword
hit in the lowercased name. -/
def is_relevant (e : OSMElement) : Bool :=
  let name := lower_tag e "name"
  let shop_type := lower_tag e "shop"
  let craft_type := lower_tag e "craft"
  let r0 := false
  let r1 :=
    if ["wholesale", "trade", "industrial"].contains shop_type then true
    else if craft_type == "shoemaker" then true
    else r0
  let name_check := shoe_material_keywords.any (fun keyword => strContains name keyword)
  if name_check then true else r1

/-- The coordinate selection of the source: a node takes its own
`lat`/`lon`; a way with a `center` takes the center coordinates; every
other case leaves both `None`. -/
def coords_of (e : OSMElement) : Option ℚ × Option ℚ :=
  if e.type == "node" then (e.lat, e.lon)
  else if e.type == "way" then
    match e.center with
    | some c => (c.lat, c.lon)
    | none => (none, none)
  else (none, none)

/-- The projection of a relevant element into a supplier record
(the `supplier = {...}` dictionary literal of the source). -/
def make_supplier (e : OSMElement) : Supplier :=
  let tags := e.tags.getD []
  let ll := coords_of e
  { id := e.id
    type := e.type
    name := dictGetD tags "name" "N/A"
    address := py_strip (dictGetD tags "addr:street" "" ++ " " ++ dictGetD tags "addr:housenumber" "")
    city := dictGetD tags "addr:city" "București"
    postcode := dictGetD tags "addr:postcode" ""
    shop := dictGetD tags "shop" ""
    craft := dictGetD tags "craft" ""
    description := dictGetD tags "description" ""
    phone := dictGetD tags "phone" ""
    website := dictGetD tags "website" ""
    latitude := ll.1
    longitude := ll.2 }

/-- The deduplication key `f"{element['type']}_{element['id']}"`. -/
def key_of (e : OSMElement) : String :=
  e.type ++ "_" ++ toString e.id

/-- The element loop of `filter_and_process_data`: skip an element whose
key is already in `seen_ids`, otherwise record the key and append a
supplier record exactly when the element is relevant. -/
def process_elements : List OSMElement → List String → List Supplier
  | [], _ => []
  | e :: rest, seen =>
    if seen.contains (key_of e) then
      process_elements rest seen
    else
      if is_relevant e then
        make_supplier e :: process_elements rest (key_of e :: seen)
      else
        process_elements rest (key_of e :: seen)

/-- `filter_and_process_data`: `None` input or a payload without an
`elements` key yields the empty list; otherwise the element loop runs with
an initially empty `seen_ids` set. -/
def filter_and_process_data : Option OSMData → List Supplier
  | none => []
  | some d =>
    match d.elements with
    | none => []
    | some es => process_elements es []

/-- The fixed CSV column list `fieldnames` of `save_to_csv`, verbatim and
in source order. -/
def fieldnames : List String :=
  ["id", "type", "name", "address", "city", "postcode",
   "shop", "craft", "description", "phone", "website",
   "latitude", "longitude"]

/-- How `csv.DictWriter` renders an optional numeric cell: `None` becomes
the empty cell, a number is rendered as text. -/
def opt_cell : Option ℚ → String
  | none => ""
  | some q => toString q

/-- The CSV row written for one supplier record, in `fieldnames` order. -/
def supplier_row (s : Supplier) : List String :=
  [toString s.id, s.type, s.name, s.address, s.city, s.postcode,
   s.shop, s.craft, s.description, s.phone, s.website,
   opt_cell s.latitude, opt_cell s.longitude]

/-- The file produced by `save_to_csv`: a name, the header row, and one
row per record. -/
structure CsvFile where
  filename : String
  header : List String
  rows : List (List String)
deriving DecidableEq, Repr

/-- The default output filename of `save_to_csv`. -/
def default_filename : String := "bucharest_shoe_suppliers.csv"

/-- `save_to_csv`: an empty record sequence writes no file and signals
"No data to save."; a non-empty sequence writes the header followed by one
row per record to the given filename. -/
def save_to_csv (suppliers : List Supplier) (filename : String) : Except String CsvFile :=
  if suppliers.isEmpty then .error "No data to save."
  else .ok ⟨filename, fieldnames, suppliers.map supplier_row⟩

/-- The outcome of one run of `main` after the fetch: the supplier list,
and the CSV step, which is only reached when the list is non-empty. -/
structure PipelineResult where
  suppliers : List Supplier
  csv : Option (Except String CsvFile)
deriving Repr

/-- The post-fetch part of `main`: classify, then save only when the
supplier list is non-empty (console display carries no data). -/
def run_pipeline (raw : Option OSMData) : PipelineResult :=
  let s := filter_and_process_data raw
  { suppliers := s
    csv := if s.isEmpty then none else some (save_to_csv s default_filename) }

/-- The node element of the specification's first end-to-end example. -/
def node42 : OSMElement :=
  { type := "node", id := 42,
    tags := some [("name", "Depozit Piele SRL"), ("shop", "wholesale")],
    lat := some (4443/100), lon := some (261/10), center := none }

/-- The way element of the specification's second end-to-end example. -/
def way7 : OSMElement :=
  { type := "way", id := 7, tags := some [("name", "Brutăria Centrală")],
    lat := none, lon := none, center := some { lat := some 44, lon := some 26 } }

/-- An element with no tag mapping at all. -/
def bare1 : OSMElement :=
  { type := "node", id := 1, tags := none, lat := none, lon := none, center := none }

/-- A relation-kind element that carries both its own coordinates and a
center, and is relevant through its shop tag. -/
def rel9 : OSMElement :=
  { type := "relation", id := 9, tags := some [("shop", "wholesale")],
    lat := some 1, lon := some 2, center := some { lat := some 3, lon := some 4 } }

/-- A second element with the same type and id as `node42` but different
content, used to exercise deduplication. -/
def dup42 : OSMElement :=
  { type := "node", id := 42, tags := some [("craft", "shoemaker")],
    lat := some 5, lon := some 6, center := none }

/-- An element that is not relevant: no matching shop, craft or keyword. -/
def plain5 : OSMElement :=
  { type := "node", id := 5, tags := some [("name", "xyz")],
    lat := none, lon := none, center := none }

/-- C5: The input element `{type: "way", id: 7, tags: {name: "Brutăria
Centrală"}, center: {lat: 44.0, lon: 26.0}}` is classified relevant: some
keyword of the fixed list (namely `brut`) is a substring of the lowercased
name `brutăria centrală`. -/
theorem way7_is_classified_relevant :
    is_relevant way7 = true
    ∧ shoe_material_keywords.any (fun k => strContains (lower_tag way7 "name") k) = true
    ∧ strContains (lower_tag way7 "name") "brut" = true := by
  exact ⟨by decide, by decide, by decide⟩

/-- C7: Given an empty record sequence the tabular writer produces no file
and signals "nothing to save"; a file is produced exactly for a non-empty
sequence. -/
theorem empty_sequence_writes_no_file :
    (∀ filename, save_to_csv [] filename = Except.error "No data to save.")
    ∧ (∀ (s : Supplier) (ss : List Supplier) (filename : String),
        ∃ f : CsvFile, save_to_csv (s :: ss) filename = Except.ok f) := by
  constructor
  · intro filename; rfl
  · intro s ss filename
    exact ⟨⟨filename, fieldnames, (s :: ss).map supplier_row⟩, rfl⟩

/-- C9: For every non-empty record sequence the tabular writer outputs the
fixed 13-column header in order, then one row per record in sequence
order; the default output filename is fixed while the caller can pass any
filename. -/
theorem csv_header_rows_and_filename (suppliers : List Supplier) (filename : String)
    (h : suppliers ≠ []) :
    (∃ f : CsvFile, save_to_csv suppliers filename = Except.ok f
      ∧ f.filename = filename
      ∧ f.header = ["id", "type", "name", "address", "city", "postcode",
                    "shop", "craft", "description", "phone", "website",
                    "latitude", "longitude"]
      ∧ f.rows = suppliers.map supplier_row
      ∧ f.rows.length = suppliers.length)
    ∧ default_filename = "bucharest_shoe_suppliers.csv" := by
  refine ⟨⟨⟨filename, fieldnames, suppliers.map supplier_row⟩, ?_, rfl, rfl, rfl, ?_⟩, rfl⟩
  · simp [save_to_csv, h]
  · simp

/-- Witness for C9 at a concrete one-record sequence. -/
theorem csv_header_rows_and_filename_witness :
    ∃ f : CsvFile, save_to_csv [make_supplier node42] "out.csv" = Except.ok f
      ∧ f.header = ["id", "type", "name", "address", "city", "postcode",
                    "shop", "craft", "description", "phone", "website",
                    "latitude", "longitude"] := by
  obtain ⟨⟨f, h1, _, h3, _, _⟩, _⟩ :=
    csv_header_rows_and_filename [make_supplier node42] "out.csv" (by simp)
  exact ⟨f, h1, h3⟩

/-- C6: A failed fetch (`None`) or a payload without a top-level
`elements` list makes the classifier return the empty sequence, and the
pipeline still completes: no file write is attempted and the run ends. -/
theorem fetch_failure_yields_empty_and_completes :
    filter_and_process_data none = []
    ∧ (∀ d : OSMData, d.elements = none → filter_and_process_data (some d) = [])
    ∧ run_pipeline none = { suppliers := [], csv := none } := by
  refine ⟨rfl, ?_, rfl⟩
  intro d hd
  simp [filter_and_process_data, hd]

/-- Witness for C6 at the concrete payload without an `elements` list. -/
theorem fetch_failure_yields_empty_and_completes_witness :
    filter_and_process_data (some { elements := none }) = [] := by
  exact fetch_failure_yields_empty_and_completes.2.1 { elements := none } rfl

/-- The sequential relevance computation of the source collapses to one
Boolean disjunction of its three tests. -/
lemma is_relevant_eq_or (e : OSMElement) :
    is_relevant e =
      (["wholesale", "trade", "industrial"].contains (lower_tag e "shop")
        || (lower_tag e "craft" == "shoemaker")
        || shoe_material_keywords.any (fun keyword => strContains (lower_tag e "name") keyword)) := by
  unfold is_relevant
  cases h1 : ["wholesale", "trade", "industrial"].contains (lower_tag e "shop") <;>
  cases h2 : (lower_tag e "craft" == "shoemaker") <;>
  cases h3 : shoe_material_keywords.any (fun keyword => strContains (lower_tag e "name") keyword) <;>
  simp only [h1, h2, h3] <;> decide

/-- One-step unfolding of the element loop on a non-empty list. -/
lemma process_elements_cons (e : OSMElement) (rest : List OSMElement) (seen : List String) :
    process_elements (e :: rest) seen =
      if seen.contains (key_of e) then process_elements rest seen
      else if is_relevant e then make_supplier e :: process_elements rest (key_of e :: seen)
      else process_elements rest (key_of e :: seen) := rfl

/-- Unfolding of the element loop when the key was already seen. -/
lemma process_elements_cons_seen (e : OSMElement) (rest : List OSMElement) (seen : List String)
    (h : seen.contains (key_of e) = true) :
    process_elements (e :: rest) seen = process_elements rest seen := by
  rw [process_elements_cons, if_pos h]

/-- Unfolding of the element loop when the key is new. -/
lemma process_elements_cons_new (e : OSMElement) (rest : List OSMElement) (seen : List String)
    (h : seen.contains (key_of e) = false) :
    process_elements (e :: rest) seen =
      if is_relevant e then make_supplier e :: process_elements rest (key_of e :: seen)
      else process_elements rest (key_of e :: seen) := by
  rw [process_elements_cons, if_neg (by rw [h]; exact Bool.false_ne_true)]

/-- C1: An element is marked relevant exactly when its lowercased shop tag
is one of wholesale, trade, industrial, or its lowercased craft tag is
shoemaker, or some keyword of the fixed 20-term list occurs as a substring
of its lowercased name; an irrelevant element is discarded, contributing
no supplier record to the loop. -/
theorem relevance_rule (e : OSMElement) :
    (is_relevant e = true ↔
      ((lower_tag e "shop" = "wholesale" ∨ lower_tag e "shop" = "trade"
          ∨ lower_tag e "shop" = "industrial")
        ∨ lower_tag e "craft" = "shoemaker"
        ∨ ∃ k, k ∈ shoe_material_keywords ∧ strContains (lower_tag e "name") k = true))
    ∧ (∀ (rest : List OSMElement) (seen : List String),
        is_relevant e = false → seen.contains (key_of e) = false →
        process_elements (e :: rest) seen = process_elements rest (key_of e :: seen)) := by
  constructor
  · rw [is_relevant_eq_or]
    simp [List.any_eq_true, or_assoc, List.elem_iff]
  · intro rest seen h1 h2
    rw [process_elements_cons_new e rest seen h2, h1]
    simp

/-- Witness for C1: the irrelevant element `plain5` is discarded. -/
theorem relevance_rule_witness :
    process_elements [plain5] [] = process_elements [] [key_of plain5] := by
  exact (relevance_rule plain5).2 [] [] (by decide) (by decide)

/-- Processing is unchanged by deleting an element whose key already
occurs in the seen set or among the keys of the elements before it. -/
lemma process_elements_skip (e : OSMElement) (ys : List OSMElement) :
    ∀ (xs : List OSMElement) (seen : List String),
      (key_of e ∈ seen ∨ key_of e ∈ xs.map key_of) →
      process_elements (xs ++ e :: ys) seen = process_elements (xs ++ ys) seen := by
  intro xs
  induction xs with
  | nil =>
    intro seen h
    have hm : key_of e ∈ seen := by
      rcases h with h | h
      · exact h
      · simp at h
    have hc : seen.contains (key_of e) = true := List.elem_iff.mpr hm
    simpa using process_elements_cons_seen e ys seen hc
  | cons x xs ih =>
    intro seen h
    have hx : key_of e ∈ seen ∨ key_of e = key_of x ∨ key_of e ∈ xs.map key_of := by
      rcases h with h | h
      · exact Or.inl h
      · rcases List.mem_cons.mp h with h | h
        · exact Or.inr (Or.inl h)
        · exact Or.inr (Or.inr h)
    simp only [List.cons_append]
    by_cases hc : seen.contains (key_of x) = true
    · rw [process_elements_cons_seen x _ seen hc, process_elements_cons_seen x _ seen hc]
      apply ih
      rcases hx with h | h | h
      · exact Or.inl h
      · exact Or.inl (by rw [h]; exact List.elem_iff.mp hc)
      · exact Or.inr h
    · have hc2 : seen.contains (key_of x) = false := by simpa using hc
      rw [process_elements_cons_new x _ seen hc2, process_elements_cons_new x _ seen hc2]
      have hnext : key_of e ∈ key_of x :: seen ∨ key_of e ∈ xs.map key_of := by
        rcases hx with h | h | h
        · exact Or.inl (List.mem_cons_of_mem _ h)
        · exact Or.inl (by rw [h]; exact List.mem_cons_self _ _)
        · exact Or.inr h
      rw [ih (key_of x :: seen) hnext]

/-- C2: Whenever two elements share the same (type, id) identity, the
later occurrence is skipped: deleting it from the input leaves the
classifier output unchanged, so only the first occurrence can contribute a
record. -/
theorem duplicate_identity_skipped (pre mid post : List OSMElement) (e1 e2 : OSMElement)
    (ht : e2.type = e1.type) (hi : e2.id = e1.id) :
    filter_and_process_data (some { elements := some (pre ++ e1 :: (mid ++ e2 :: post)) })
      = filter_and_process_data (some { elements := some (pre ++ e1 :: (mid ++ post)) }) := by
  have hkey : key_of e2 = key_of e1 := by simp [key_of, ht, hi]
  have h1 : pre ++ e1 :: (mid ++ e2 :: post) = (pre ++ e1 :: mid) ++ e2 :: post := by
    simp
  have h2 : pre ++ e1 :: (mid ++ post) = (pre ++ e1 :: mid) ++ post := by
    simp
  simp only [filter_and_process_data, h1, h2]
  apply process_elements_skip
  apply Or.inr
  rw [hkey]
  have hmem : e1 ∈ pre ++ e1 :: mid := by simp
  exact List.mem_map_of_mem _ hmem

/-- Witness for C2: a duplicate of `node42` with different tags is
skipped. -/
theorem duplicate_identity_skipped_witness :
    filter_and_process_data (some { elements := some ([] ++ node42 :: ([] ++ dup42 :: [])) })
      = filter_and_process_data (some { elements := some ([] ++ node42 :: ([] ++ [])) }) := by
  exact duplicate_identity_skipped [] [] [] node42 dup42 rfl rfl

/-- C3: A node takes its own lat/lon; a way with a declared center takes
the center's lat/lon; a way without a center has null coordinates; a node
without its own coordinates has null coordinates. -/
theorem coordinate_selection (e : OSMElement) :
    (e.type = "node" → (make_supplier e).latitude = e.lat ∧ (make_supplier e).longitude = e.lon)
    ∧ (e.type = "way" → ∀ c : Center, e.center = some c →
        (make_supplier e).latitude = c.lat ∧ (make_supplier e).longitude = c.lon)
    ∧ (e.type = "way" → e.center = none →
        (make_supplier e).latitude = none ∧ (make_supplier e).longitude = none)
    ∧ (e.type = "node" → e.lat = none → e.lon = none →
        (make_supplier e).latitude = none ∧ (make_supplier e).longitude = none) := by
  refine ⟨?_, ?_, ?_, ?_⟩
  · intro hn
    have hc : coords_of e = (e.lat, e.lon) := by simp [coords_of, hn]
    exact ⟨by simp [make_supplier, hc], by simp [make_supplier, hc]⟩
  · intro hw c hcen
    have hc : coords_of e = (c.lat, c.lon) := by simp [coords_of, hw, hcen]
    exact ⟨by simp [make_supplier, hc], by simp [make_supplier, hc]⟩
  · intro hw hcen
    have hc : coords_of e = (none, none) := by simp [coords_of, hw, hcen]
    exact ⟨by simp [make_supplier, hc], by simp [make_supplier, hc]⟩
  · intro hn hlat hlon
    have hc : coords_of e = (none, none) := by simp [coords_of, hn, hlat, hlon]
    exact ⟨by simp [make_supplier, hc], by simp [make_supplier, hc]⟩

/-- Witness for C3 at the node element of the example. -/
theorem coordinate_selection_witness :
    (make_supplier node42).latitude = some ((4443 : ℚ)/100)
    ∧ (make_supplier node42).longitude = some ((261 : ℚ)/10) := by
  exact (coordinate_selection node42).1 rfl

/-- C10: An element whose kind is neither node nor way gets null latitude
and longitude even when it carries its own coordinates or a center, and a
relevant such element is still projected into the output like any
other. -/
theorem other_kind_null_coordinates (e : OSMElement)
    (h1 : e.type ≠ "node") (h2 : e.type ≠ "way") :
    (make_supplier e).latitude = none ∧ (make_supplier e).longitude = none
    ∧ (is_relevant e = true →
        filter_and_process_data (some { elements := some [e] }) = [make_supplier e]) := by
  have hb1 : (e.type == "node") = false := by simp [h1]
  have hb2 : (e.type == "way") = false := by simp [h2]
  have hc : coords_of e = (none, none) := by simp [coords_of, hb1, hb2]
  refine ⟨by simp [make_supplier, hc], by simp [make_supplier, hc], ?_⟩
  intro hr
  rw [show filter_and_process_data (some { elements := some [e] })
        = process_elements [e] [] from rfl,
      process_elements_cons_new e [] [] rfl, if_pos hr]
  rfl

/-- Witness for C10 at `rel9`, a relation with coordinates, a center and a
wholesale shop tag. -/
theorem other_kind_null_coordinates_witness :
    (make_supplier rel9).latitude = none ∧ (make_supplier rel9).longitude = none
    ∧ filter_and_process_data (some { elements := some [rel9] }) = [make_supplier rel9] := by
  obtain ⟨ha, hb, hc⟩ := other_kind_null_coordinates rel9 (by decide) (by decide)
  exact ⟨ha, hb, hc (by decide)⟩

/-- C4: The projection uses the fixed field mapping with defaults: name
defaults to N/A, city to București, the address is the stripped join of
street and house number (empty when both are absent), and the shop and
craft fields keep the original attribute casing; the node-42 example
element yields exactly the record stated in the specification. -/
theorem field_mapping_and_example (e : OSMElement) :
    (dictGet (e.tags.getD []) "name" = none → (make_supplier e).name = "N/A")
    ∧ (∀ v, dictGet (e.tags.getD []) "name" = some v → (make_supplier e).name = v)
    ∧ (dictGet (e.tags.getD []) "addr:city" = none → (make_supplier e).city = "București")
    ∧ (∀ v, dictGet (e.tags.getD []) "addr:city" = some v → (make_supplier e).city = v)
    ∧ (make_supplier e).address
        = py_strip (dictGetD (e.tags.getD []) "addr:street" "" ++ " "
            ++ dictGetD (e.tags.getD []) "addr:housenumber" "")
    ∧ (dictGet (e.tags.getD []) "addr:street" = none →
        dictGet (e.tags.getD []) "addr:housenumber" = none →
        (make_supplier e).address = "")
    ∧ (make_supplier e).shop = dictGetD (e.tags.getD []) "shop" ""
    ∧ (make_supplier e).craft = dictGetD (e.tags.getD []) "craft" ""
    ∧ filter_and_process_data (some { elements := some [node42] })
        = [{ id := 42, type := "node", name := "Depozit Piele SRL", address := "",
             city := "București", postcode := "", shop := "wholesale", craft := "",
             description := "", phone := "", website := "",
             latitude := some (4443/100), longitude := some (261/10) }] := by
  refine ⟨?_, ?_, ?_, ?_, rfl, ?_, rfl, rfl, rfl⟩
  · intro h
    simp [make_supplier, dictGetD, h]
  · intro v h
    simp [make_supplier, dictGetD, h]
  · intro h
    simp [make_supplier, dictGetD, h]
  · intro v h
    simp [make_supplier, dictGetD, h]
  · intro hs hn
    simp only [make_supplier, dictGetD, hs, hn, Option.getD_none]
    decide

/-- Witness for C4 at the element without a tag mapping. -/
theorem field_mapping_and_example_witness :
    (make_supplier bare1).name = "N/A" ∧ (make_supplier bare1).city = "București"
    ∧ (make_supplier bare1).address = "" := by
  obtain ⟨h1, _, h3, _, _, h6, _, _, _⟩ := field_mapping_and_example bare1
  exact ⟨h1 rfl, h3 rfl, h6 rfl rfl⟩

/-- C8: The classifier is total on missing attributes: an element with no
tag mapping at all is still classified and projected, every field taking
its documented default or the empty value, and every single-element input
always yields a well-defined output (the record when relevant, nothing
otherwise). -/
theorem classifier_total_with_defaults (e : OSMElement) (h : e.tags = none) :
    (make_supplier e).name = "N/A"
    ∧ (make_supplier e).address = ""
    ∧ (make_supplier e).city = "București"
    ∧ (make_supplier e).postcode = ""
    ∧ (make_supplier e).shop = ""
    ∧ (make_supplier e).craft = ""
    ∧ (make_supplier e).description = ""
    ∧ (make_supplier e).phone = ""
    ∧ (make_supplier e).website = ""
    ∧ (∀ e2 : OSMElement, filter_and_process_data (some { elements := some [e2] })
        = if is_relevant e2 then [make_supplier e2] else []) := by
  refine ⟨?_, ?_, ?_, ?_, ?_, ?_, ?_, ?_, ?_, ?_⟩
  · simp [make_supplier, dictGetD, dictGet, h]
  · simp only [make_supplier, dictGetD, dictGet, h, Option.getD_none]
    decide
  · simp [make_supplier, dictGetD, dictGet, h]
  · simp [make_supplier, dictGetD, dictGet, h]
  · simp [make_supplier, dictGetD, dictGet, h]
  · simp [make_supplier, dictGetD, dictGet, h]
  · simp [make_supplier, dictGetD, dictGet, h]
  · simp [make_supplier, dictGetD, dictGet, h]
  · simp [make_supplier, dictGetD, dictGet, h]
  · intro e2
    rw [show filter_and_process_data (some { elements := some [e2] })
          = process_elements [e2] [] from rfl,
        process_elements_cons_new e2 [] [] rfl]
    rfl

/-- Witness for C8 at the element without a tag mapping. -/
theorem classifier_total_with_defaults_witness :
    (make_supplier bare1).postcode = "" ∧ (make_supplier bare1).craft = ""
    ∧ (make_supplier bare1).phone = ""
    ∧ filter_and_process_data (some { elements := some [bare1] })
        = if is_relevant bare1 then [make_supplier bare1] else [] := by
  obtain ⟨_, _, _, h4, _, h6, _, h8, _, h10⟩ := classifier_total_with_defaults bare1 rfl
  exact ⟨h4, h6, h8, h10 bare1⟩
